import Mathlib

/-!
Verification of the encrypted-memo transfer protocol and history-reconciliation
pipeline of the `eliza-plugin-dot` repository (`src/common/subscan-api.ts`,
classes `SubscanApi` and `SubstrateChain`).

The TypeScript is shallowly embedded: the pure data-processing cores of the
methods become Lean functions; JavaScript exceptions become `Except String`;
`null`/`undefined` become `Option`; the external collaborators (the Subscan
HTTP indexer, the polkadot keyring, the `@eliza-dot-aes` crypt service) appear
either as function-valued fields of the model state or as definitions marked
"Modelled from the spec".
-/

namespace EDot

/-! ## Data model

`EncryptedMemo` mirrors the envelope `{e, t, to}` from `@eliza-dot-aes/common`
as it is constructed in `SubstrateChain.encryptMemo`
(`{e: encryptedMemo, t: this.keyPairType, to: to}`). -/

structure EncryptedMemo where
  e : String
  t : String
  to_ : String
deriving Repr, DecidableEq

/-- JSON string escaping as performed by `JSON.stringify` on the envelope
fields (quote and backslash; the base64 ciphertext, keypair-type tag and
SS58 address never contain control characters, so those escapes never fire). -/
def jsonEscape (s : String) : String :=
  String.join (s.toList.map (fun c =>
    if c = '\\' then "\\\\"
    else if c = '"' then "\\\""
    else String.singleton c))

def quoteJson (s : String) : String :=
  "\"" ++ jsonEscape s ++ "\""

/-- Model of `JSON.stringify({e: ..., t: ..., to: ...})`: the serialization of the
envelope object, with exactly the three fields `e`, `t`, `to` in this order,
as produced on the write path of `transferWithMemo` / `assetsTransferWithMemo`. -/
def encodeEncryptedMemo (m : EncryptedMemo) : String :=
  "\x7b\"e\":" ++ quoteJson m.e ++ ",\"t\":" ++ quoteJson m.t ++
    ",\"to\":" ++ quoteJson m.to_ ++ "\x7d"

/-- Model of `JSON.stringify` applied to `EncryptedMemo | null` (`JSON.stringify(null)`
prints `"null"`). -/
def stringifyMemo : Option EncryptedMemo → String
  | none => "null"
  | some m => encodeEncryptedMemo m

/-- Consume input characters up to the next `'"'`; return the consumed text and
the remaining characters after the quote. -/
def takeUntilQuote : List Char → Option (String × List Char)
  | [] => none
  | c :: cs =>
    if c = '"' then some ("", cs)
    else
      match takeUntilQuote cs with
      | some (s, rest) => some (String.singleton c ++ s, rest)
      | none => none

/-- Consume an exact literal character sequence; return the remaining input. -/
def dropLiteral : List Char → List Char → Option (List Char)
  | [], input => some input
  | p :: ps, c :: cs => if c = p then dropLiteral ps cs else none
  | _ :: _, [] => none

/-- Parser for the three-field envelope layout. -/
def parseEnvelopeChars (cs : List Char) : Option EncryptedMemo := do
  let cs ← dropLiteral ("\x7b\"e\":\"".toList) cs
  let (e, cs) ← takeUntilQuote cs
  let cs ← dropLiteral (",\"t\":\"".toList) cs
  let (t, cs) ← takeUntilQuote cs
  let cs ← dropLiteral (",\"to\":\"".toList) cs
  let (to_, cs) ← takeUntilQuote cs
  match cs with
  | ['\x7d'] => some ⟨e, t, to_⟩
  | _ => none

/-- Modelled from the spec: `convertJsonToEncryptedMemo` lives in the external
`@eliza-dot-aes/common` package, not in this repository's sources. Per the
spec, decryption "must first attempt to parse the field as a structured
envelope; if that parse fails, the codec must not attempt cryptographic
decryption and must classify the field as opaque". This parser accepts exactly
the three-field JSON object layout written by `encodeEncryptedMemo` (for
fields without embedded quotes) and fails on everything else, including an
absent (`undefined`) memo. -/
def convertJsonToEncryptedMemo (memo : Option String) : Except String EncryptedMemo :=
  match memo with
  | none => .error "SyntaxError: not a memo envelope"
  | some s =>
    match parseEnvelopeChars s.toList with
    | some m => .ok m
    | none => .error "SyntaxError: not a memo envelope"

/-! ## Indexer record shapes (read path)

`SubscanApi.getMemoByTransferExtrinsics` consumes the indexer's
extrinsic-parameter records: each record has a locator (`extrinsic_index`) and
an ordered parameter list; a parameter value is either an opaque scalar
(rendered here as a string) or — for `utility.batch_all` style extrinsics — a
sequence of inner calls. -/

structure InnerParam where
  name : String
  value : String
deriving Repr, DecidableEq

structure InnerCall where
  call_module : String
  call_name : String
  params : List InnerParam
deriving Repr, DecidableEq

inductive PValue where
  | str : String → PValue
  | calls : List InnerCall → PValue
deriving Repr, DecidableEq

structure ExtrinsicParam where
  name : String
  value : PValue
deriving Repr, DecidableEq

structure ExtrinsicParamsRecord where
  extrinsic_index : String
  params : List ExtrinsicParam
deriving Repr, DecidableEq

/-- Mirror of `interface ExtrinsicParamsWithMemo {extrinsic_index; memo}` (the memo is a
raw string here, `undefined` when absent). -/
structure ExtrinsicParamsWithMemo where
  extrinsic_index : String
  memo : Option String
deriving Repr, DecidableEq

/-- The body of the `data.data.map` callback in
`SubscanApi.getMemoByTransferExtrinsics`:

```js
const index = item.extrinsic_index;
if (item.params.length == 1 && item.params[0].name === "calls") {
  const batch_all_value = item.params[0].value;
  const last_call = batch_all_value.at(-1);
  if (last_call.call_module === "System" &&
      (last_call.call_name === "remark_with_event" || last_call.call_name === "remark")) {
    const transfer_with_memo_params = last_call.params[0].value.toString();
    return {extrinsic_index: index, memo: transfer_with_memo_params};
  }
}
return {extrinsic_index: index, memo: undefined};
```

JavaScript corner cases embedded faithfully: `[].at(-1)` is `undefined`, so on
an empty batch the `last_call.call_module` access throws a `TypeError`;
likewise `last_call.params[0].value` throws when the trailing remark has no
parameters.  When the single `"calls"` parameter holds a plain string `s`,
`s.at(-1)` is its last one-character string (whose `.call_module` is
`undefined`, failing the remark test) for nonempty `s`, and `undefined`
(throwing) for `s = ""`. -/
def memoEntry (item : ExtrinsicParamsRecord) : Except String ExtrinsicParamsWithMemo :=
  match item.params with
  | [p] =>
    if p.name = "calls" then
      match p.value with
      | .calls batch_all_value =>
        match batch_all_value.getLast? with
        | none => .error "TypeError: Cannot read properties of undefined (reading call_module)"
        | some last_call =>
          if last_call.call_module = "System" ∧
              (last_call.call_name = "remark_with_event" ∨ last_call.call_name = "remark") then
            match last_call.params.head? with
            | none => .error "TypeError: Cannot read properties of undefined (reading value)"
            | some p0 => .ok ⟨item.extrinsic_index, some p0.value⟩
          else .ok ⟨item.extrinsic_index, none⟩
      | .str s =>
        if s = "" then
          .error "TypeError: Cannot read properties of undefined (reading call_module)"
        else .ok ⟨item.extrinsic_index, none⟩
    else .ok ⟨item.extrinsic_index, none⟩
  | _ => .ok ⟨item.extrinsic_index, none⟩

/-- Model of `SubscanApi.getMemoByTransferExtrinsics`, applied to the records the
indexer returned for the requested locators: a synchronous `Array.map` whose
callback may throw, so one throwing record rejects the whole call. -/
def getMemoByTransferExtrinsics :
    List ExtrinsicParamsRecord → Except String (List ExtrinsicParamsWithMemo)
  | [] => .ok []
  | r :: rs =>
    match memoEntry r with
    | .error e => .error e
    | .ok entry =>
      match getMemoByTransferExtrinsics rs with
      | .error e => .error e
      | .ok entries => .ok (entry :: entries)

/-! ## Transfer rows (read path) -/

/-- One raw transfer record of the indexer's `/api/v2/scan/transfers` response
(`data.transfers[i]`), restricted to the fields the code reads.  `fee` stays an
integer here; its display string is produced by a formatting collaborator (the
source computes `(item.fee / 10 ** 10).toString()`, floating-point display
arithmetic outside this embedding). -/
structure RawTransfer where
  transfer_id : Nat
  extrinsic_index : String
  hash : String
  block_num : Nat
  asset_unique_id : String
  asset_symbol : String
  fee : Int
  success : Bool
  amount : String
  from_ : String
  to_ : String
  block_timestamp : Nat
deriving Repr, DecidableEq

/-- Mirror of `interface TransferDetail` from `src/types` (the intermediate record built
by the first `.map` in `addressTransferHistory`). -/
structure TransferDetail where
  id : Nat
  extrinsic_index : String
  extrinsic_hash : String
  block_number : Nat
  asset_unique_id : String
  asset_symbol : String
  xtrinsic_hash : String
  fee : String
  success : Bool
  value : String
  from_ : String
  to_ : String
  amount : String
  timestamp : Nat
  memo : Option String
deriving Repr, DecidableEq

/-- Mirror of `interface TransferDetailWithMemo` from `src/types`: the normalized
history row. -/
structure TransferDetailWithMemo where
  type : String
  sender : String
  recipient : String
  tokenSymbol : String
  amount : String
  memo : Option String
  fee : String
  timestamp : Nat
  txId : String
  extrinsic_index : String
deriving Repr, DecidableEq

/-- The data-processing core of `SubscanApi.addressTransferHistory`: the two
HTTP calls are replaced by their response payloads (`transfersData` for
`data.data.transfers`, `paramRecords` for the extrinsic-parameter records the
memo lookup receives).  `address` is `string | null | undefined` at the call
sites (`getTransferByHash` passes `undefined`); note that the direction ternary
`item.from === address` compares a string to that possibly-absent address. -/
def addressTransferHistory (address : Option String) (feeFmt : Int → String)
    (transfersData : List RawTransfer) (paramRecords : List ExtrinsicParamsRecord) :
    Except String (List TransferDetailWithMemo) :=
  match getMemoByTransferExtrinsics paramRecords with
  | .error e => .error e
  | .ok memos =>
  let transfers : List TransferDetail := transfersData.map (fun item =>
    { id := item.transfer_id
      extrinsic_index := item.extrinsic_index
      extrinsic_hash := item.hash
      block_number := item.block_num
      asset_unique_id := item.asset_unique_id
      asset_symbol := item.asset_symbol
      xtrinsic_hash := item.hash
      fee := feeFmt item.fee ++ " DOT"
      success := item.success
      value := item.amount
      from_ := item.from_
      to_ := item.to_
      amount := item.amount
      timestamp := item.block_timestamp
      memo := (memos.find? (fun i => i.extrinsic_index == item.extrinsic_index)).bind
        (fun i => i.memo) })
  .ok (transfers.map (fun item =>
    { type := if some item.from_ == address then "Send" else "Receive"
      sender := item.from_
      recipient := item.to_
      tokenSymbol := item.asset_symbol
      amount := item.value
      memo := item.memo
      fee := item.fee
      timestamp := item.timestamp
      txId := item.extrinsic_hash
      extrinsic_index := item.extrinsic_index }))

/-- Model of `SubscanApi.getTransferByHash`: resolve the hash to a locator (network
collaborator; `transfersData` is the indexer's answer for that locator), run
`addressTransferHistory(undefined, extrinsicIndex)`, and return
`transfer[0] ?? null`. -/
def getTransferByHash (feeFmt : Int → String) (transfersData : List RawTransfer)
    (paramRecords : List ExtrinsicParamsRecord) :
    Except String (Option TransferDetailWithMemo) :=
  match addressTransferHistory none feeFmt transfersData paramRecords with
  | .error e => .error e
  | .ok transfer => .ok transfer.head?

/-! ## Crypt service and decryption (read path)

`ICryptMessage` is an interface of the external `@eliza-dot-aes/common`
package; the repository only calls `getKeyPairType()`, `encryptMessage` and
`decryptMessage`, so the model carries those as function fields (the functions
may throw). -/

structure CryptMessage where
  keyPairType : String
  encryptMessage : String → String → Except String String
  decryptMessage : String → Except String String

/-- Model of `SubscanApi.decryptTransfersMemo`: per-row
`try { const memoJson = convertJsonToEncryptedMemo(transfer.memo);
       transfer.memo = await cryptMessage.decryptMessage(memoJson.e); }
 catch (e) { transfer.memo = transfer.memo; }`.
The `cryptMessage` argument is `Option` because `getTransferMemo` passes
`this.cryptMessage`, which is `ICryptMessage | null`; a null service makes the
`cryptMessage.decryptMessage` access throw inside the per-row `try`, so the
row's memo is kept. -/
def decryptTransfersMemo (transfers : List TransferDetailWithMemo)
    (cryptMessage : Option CryptMessage) : List TransferDetailWithMemo :=
  transfers.map (fun transfer =>
    match convertJsonToEncryptedMemo transfer.memo with
    | .error _ => transfer
    | .ok memoJson =>
      match cryptMessage with
      | none => transfer
      | some cm =>
        match cm.decryptMessage memoJson.e with
        | .ok plain => { transfer with memo := some plain }
        | .error _ => transfer)

/-- Observation function on the same control flow as `decryptTransfersMemo`:
the ciphertexts that are passed to `cryptMessage.decryptMessage`, in row
order.  A row reaches the decrypt call exactly when its memo parses as an
envelope and the service is non-null. -/
def decryptAttempts (transfers : List TransferDetailWithMemo)
    (cryptMessage : Option CryptMessage) : List String :=
  match cryptMessage with
  | none => []
  | some _ => transfers.filterMap (fun transfer =>
      match convertJsonToEncryptedMemo transfer.memo with
      | .ok memoJson => some memoJson.e
      | .error _ => none)

/-! ## SubstrateChain (write path)

The chain connection (`init`, `ApiPromise`), the keyring and the address
checksum check are external collaborators; they appear as function-valued
fields.  `validate` is `checkAddress(address, this.ss58Format)[0]` and
`addressPublicKey` is `getAddressPublicKey` (keyring decode; throws on a bad
address, never returns null). -/

structure SubstrateChain where
  keyPairType : String
  cryptMessage : Option CryptMessage
  validate : String → Bool
  addressPublicKey : String → Except String String

/-- Model of `SubstrateChain.create`: after `init()` (network I/O, outside the model),
`if (cryptMessage != null && keypairType != cryptMessage.getKeyPairType())
 throw new Error("keyPairType and cryptMessage are not consistent")`,
with every failure wrapped as `Failed to create SubstrateService: ...`. -/
def SubstrateChain.create (validate : String → Bool)
    (addressPublicKey : String → Except String String)
    (keypairType : String) (cryptMessage : Option CryptMessage) :
    Except String SubstrateChain :=
  match cryptMessage with
  | some cm =>
    if keypairType = cm.keyPairType then
      .ok ⟨keypairType, some cm, validate, addressPublicKey⟩
    else
      .error "Failed to create SubstrateService: Error: keyPairType and cryptMessage are not consistent"
  | none => .ok ⟨keypairType, none, validate, addressPublicKey⟩

/-- Model of `SubstrateChain.encryptMemo`:
```js
if (memo == null) return null;
toPublicKey = toPublicKey ?? await this.getAddressPublicKey(to);
if (toPublicKey == null) return null;
const encryptedMemo = await this.cryptMessage.encryptMessage(memo, hexToBytes(toPublicKey));
return {e: encryptedMemo, t: this.keyPairType, to: to};
```
(`hexToBytes` is a pure representation change; the model's `encryptMessage`
oracle receives the hex string itself.  A null `cryptMessage` makes the
`.encryptMessage` access throw.) -/
def SubstrateChain.encryptMemo (c : SubstrateChain) (memo : Option String)
    (to_ : String) (toPublicKey : Option String) :
    Except String (Option EncryptedMemo) :=
  match memo with
  | none => .ok none
  | some msg =>
    match (match toPublicKey with
           | some pk => Except.ok pk
           | none => c.addressPublicKey to_) with
    | .error e => .error e
    | .ok pk =>
      match c.cryptMessage with
      | none => .error "TypeError: Cannot read properties of null (reading encryptMessage)"
      | some cm =>
        match cm.encryptMessage msg pk with
        | .error e => .error e
        | .ok e => .ok (some ⟨e, c.keyPairType, to_⟩)

/-- The calls this component composes and hands to `signAndSend`.  A
successful result of the compose methods is the call that gets signed and
submitted; an `.error` means nothing was signed or submitted. -/
inductive Call where
  | balancesTransferKeepAlive (to_ : String) (amount : Nat)
  | assetsTransferKeepAlive (assetId : Nat) (to_ : String) (amount : Nat)
  | systemRemark (payload : String)
  | utilityBatchAll (calls : List Call)
deriving Repr

/-- Model of `SubstrateChain.transferWithMemo`: validate the recipient, then either the
plain `balances.transferKeepAlive` (null memo) or the
`utility.batchAll([transfer, system.remark(JSON.stringify(m))])` path; every
thrown error is wrapped as `Failed to transferWithMemo: ...`. -/
def SubstrateChain.transferWithMemo (c : SubstrateChain) (to_ : String)
    (amount : Nat) (memo : Option String) : Except String Call :=
  if c.validate to_ = false then
    .error "Failed to transferWithMemo: Error: to is not a valid address"
  else
    match memo with
    | none => .ok (.balancesTransferKeepAlive to_ amount)
    | some _ =>
      match c.encryptMemo memo to_ none with
      | .error e => .error ("Failed to transferWithMemo: " ++ e)
      | .ok m =>
        .ok (.utilityBatchAll
          [.balancesTransferKeepAlive to_ amount, .systemRemark (stringifyMemo m)])

/-- Model of `SubstrateChain.sendMessage`:
`if (message == null) throw new Error("message is null");
 return await this.transferWithMemo(to, BigInt(0), message);`
with errors wrapped as `Failed to sendMessage: ...`. -/
def SubstrateChain.sendMessage (c : SubstrateChain) (to_ : String)
    (message : Option String) : Except String Call :=
  match message with
  | none => .error "Failed to sendMessage: Error: message is null"
  | some msg =>
    match c.transferWithMemo to_ 0 (some msg) with
    | .error e => .error ("Failed to sendMessage: " ++ e)
    | .ok tx => .ok tx

/-- Model of `SubstrateChain.assetsTransferWithMemo`: a null `assetId` degenerates to
`transferWithMemo`; otherwise validate, then the plain
`assets.transferKeepAlive` (null memo) or the batch path; errors wrapped as
`Failed to assetsTransferWithMemo: ...`. -/
def SubstrateChain.assetsTransferWithMemo (c : SubstrateChain) (to_ : String)
    (amount : Nat) (assetId : Option Nat) (memo : Option String) :
    Except String Call :=
  match assetId with
  | none =>
    match c.transferWithMemo to_ amount memo with
    | .error e => .error ("Failed to assetsTransferWithMemo: " ++ e)
    | .ok tx => .ok tx
  | some assetId =>
    if c.validate to_ = false then
      .error "Failed to assetsTransferWithMemo: Error: to is not a valid address"
    else
      match memo with
      | none => .ok (.assetsTransferKeepAlive assetId to_ amount)
      | some _ =>
        match c.encryptMemo memo to_ none with
        | .error e => .error ("Failed to assetsTransferWithMemo: " ++ e)
        | .ok m =>
          .ok (.utilityBatchAll
            [.assetsTransferKeepAlive assetId to_ amount,
             .systemRemark (stringifyMemo m)])

/-- Model of `SubstrateChain.getTransferMemo`:
```js
if (this.subscanApi == null) throw new Error("subscanApi is null");
const txDetails = await this.subscanApi.getTransferByHash(txHash);
if (txDetails == null || txDetails == undefined) throw new Error("txDetails is null");
const transfer = await this.subscanApi.decryptTransfersMemo([txDetails], this.cryptMessage);
return transfer[0];
```
(the `headD` default is never used: `decryptTransfersMemo` of a one-row list
is a one-row list). -/
def SubstrateChain.getTransferMemo (c : SubstrateChain) (feeFmt : Int → String)
    (transfersData : List RawTransfer) (paramRecords : List ExtrinsicParamsRecord) :
    Except String TransferDetailWithMemo :=
  match getTransferByHash feeFmt transfersData paramRecords with
  | .error e => .error ("Failed to getTransactionMemo: " ++ e)
  | .ok none => .error "Failed to getTransactionMemo: Error: txDetails is null"
  | .ok (some txDetails) =>
    .ok ((decryptTransfersMemo [txDetails] c.cryptMessage).headD txDetails)

/-! ## Indexer rendering of a submitted call

Modelled from the spec: how the chain indexer renders a submitted extrinsic as
a raw extrinsic-parameter record ("May represent a single call or a
'batch-all' call whose parameter list is itself a sequence of inner calls").
This glue is external to the repository (it is the indexer's side of the wire
contract) and is only used to connect the write path to the read path. -/

def innerOf : Call → InnerCall
  | .balancesTransferKeepAlive to_ amount =>
    ⟨"Balances", "transfer_keep_alive", [⟨"dest", to_⟩, ⟨"value", toString amount⟩]⟩
  | .assetsTransferKeepAlive assetId to_ amount =>
    ⟨"Assets", "transfer_keep_alive",
      [⟨"id", toString assetId⟩, ⟨"target", to_⟩, ⟨"amount", toString amount⟩]⟩
  | .systemRemark payload => ⟨"System", "remark", [⟨"remark", payload⟩]⟩
  | .utilityBatchAll _ => ⟨"Utility", "batch_all", []⟩

def indexerRecord (locator : String) : Call → ExtrinsicParamsRecord
  | .utilityBatchAll cs => ⟨locator, [⟨"calls", .calls (cs.map innerOf)⟩]⟩
  | .balancesTransferKeepAlive to_ amount =>
    ⟨locator, [⟨"dest", .str to_⟩, ⟨"value", .str (toString amount)⟩]⟩
  | .assetsTransferKeepAlive assetId to_ amount =>
    ⟨locator, [⟨"id", .str (toString assetId)⟩, ⟨"target", .str to_⟩,
               ⟨"amount", .str (toString amount)⟩]⟩
  | .systemRemark payload => ⟨locator, [⟨"remark", .str payload⟩]⟩

/-! ## Spec-side readings of the memo-extraction rule (for refinement) -/

/-- The memo-extraction rule exactly as the claim words it: "exactly one
parameter that is a sequence of inner calls (a batch)" — a shape condition,
with no requirement on the parameter's name. -/
def memoSpecClaim (item : ExtrinsicParamsRecord) : Option String :=
  match item.params with
  | [{ name := _, value := .calls cs }] =>
    match cs.getLast? with
    | some lc =>
      if lc.call_module = "System" ∧
          (lc.call_name = "remark_with_event" ∨ lc.call_name = "remark") then
        (lc.params.head?).map (fun q => q.value)
      else none
    | none => none
  | _ => none

/-- The amended reading: the single parameter must additionally be the one
named `"calls"` (this is the condition the code tests). -/
def memoSpecNamed (item : ExtrinsicParamsRecord) : Option String :=
  match item.params with
  | [p] =>
    if p.name = "calls" then
      match p.value with
      | .calls cs =>
        match cs.getLast? with
        | some lc =>
          if lc.call_module = "System" ∧
              (lc.call_name = "remark_with_event" ∨ lc.call_name = "remark") then
            (lc.params.head?).map (fun q => q.value)
          else none
        | none => none
      | .str _ => none
    else none
  | _ => none

/-- Well-formedness of an extrinsic-parameter record: the inputs on which the
extraction does not hit a JavaScript `TypeError` (nonempty batch; trailing
remark carries its parameter; no empty-string `"calls"` value). -/
def recordWF (item : ExtrinsicParamsRecord) : Bool :=
  match item.params with
  | [p] =>
    if p.name = "calls" then
      match p.value with
      | .calls cs =>
        match cs.getLast? with
        | none => false
        | some lc =>
          if lc.call_module = "System" ∧
              (lc.call_name = "remark_with_event" ∨ lc.call_name = "remark") then
            !lc.params.isEmpty
          else true
      | .str s => !(s == "")
    else true
  | _ => true

/-! ## Concrete fixtures (used by witnesses and counterexamples) -/

/-- A concrete crypt service: sr25519 identity whose `decryptMessage`
authenticates exactly the ciphertext `"CT"`. -/
def cm0 : CryptMessage :=
  ⟨"sr25519",
   fun m pk => .ok ("CT:" ++ m ++ ":" ++ pk),
   fun c => if c = "CT" then .ok "secret" else .error "bad authentication tag"⟩

/-- A concrete chain whose address checksum check accepts everything. -/
def chain0 : SubstrateChain :=
  ⟨"sr25519", some cm0, fun _ => true, fun a => .ok ("PK" ++ a)⟩

/-- Like `chain0` but every address fails the SS58 check. -/
def chainBad : SubstrateChain :=
  ⟨"sr25519", some cm0, fun _ => false, fun a => .ok ("PK" ++ a)⟩

def feeFmt0 : Int → String := fun _ => "0"

/-- A raw indexer transfer record. -/
def rAlice : RawTransfer :=
  ⟨1, "9-1", "0xh", 9, "u1", "DOT", 80, true, "5", "alice", "bob", 100⟩

/-- The history row `addressTransferHistory` reconstructs from `rAlice` when
no address was queried (hash-lookup path). -/
def rowAliceOut : TransferDetailWithMemo :=
  ⟨"Receive", "alice", "bob", "DOT", "5", none, "0 DOT", 100, "0xh", "9-1"⟩

/-- The history row reconstructed from `rAlice` when `"alice"` was queried. -/
def rowAliceSendOut : TransferDetailWithMemo :=
  ⟨"Send", "alice", "bob", "DOT", "5", none, "0 DOT", 100, "0xh", "9-1"⟩

/-- A row carrying a well-formed envelope whose scheme tag matches `cm0` and
whose ciphertext `cm0` authenticates. -/
def tGood : TransferDetailWithMemo :=
  ⟨"Receive", "alice", "bob", "DOT", "5",
   some (encodeEncryptedMemo ⟨"CT", "sr25519", "bob"⟩), "0 DOT", 100, "0xh", "9-1"⟩

/-- A row whose memo is opaque garbage (no envelope structure). -/
def tBad : TransferDetailWithMemo :=
  ⟨"Receive", "carol", "bob", "DOT", "7", some "just a plain remark",
   "0 DOT", 101, "0xh2", "9-2"⟩

/-- A row carrying a well-formed envelope whose scheme tag (`ed25519`) differs
from `cm0`'s (`sr25519`), but whose ciphertext `cm0` happens to authenticate. -/
def tMismatch : TransferDetailWithMemo :=
  ⟨"Receive", "alice", "bob", "DOT", "5",
   some (encodeEncryptedMemo ⟨"CT", "ed25519", "bob"⟩), "0 DOT", 100, "0xh", "9-1"⟩

/-- An extrinsic-parameter record whose single parameter holds a sequence of
inner calls ending in a `System.remark`, but is named `"transactions"` rather
than `"calls"`. -/
def rOddName : ExtrinsicParamsRecord :=
  ⟨"10-1", [⟨"transactions", .calls [⟨"System", "remark", [⟨"remark", "hello"⟩]⟩]⟩]⟩

/-- A single-inner-call batch record ending in a remark, as the composer
writes it. -/
def rBatchRemark : ExtrinsicParamsRecord :=
  ⟨"11-1", [⟨"calls",
    .calls [⟨"Balances", "transfer_keep_alive", [⟨"dest", "bob"⟩, ⟨"value", "5"⟩]⟩,
            ⟨"System", "remark", [⟨"remark", "payload"⟩]⟩]⟩]⟩

/-- A non-batch record (an ordinary transfer extrinsic). -/
def rPlain : ExtrinsicParamsRecord :=
  ⟨"12-1", [⟨"dest", .str "bob"⟩, ⟨"value", .str "5"⟩]⟩

/-! ## Helper lemmas -/

/-- Inversion of a successful `encryptMemo` on a non-null memo: the recipient
key was resolved, the crypt service existed and encrypted, and the produced
envelope is `{e, t: keyPairType, to}`. -/
theorem encryptMemo_some_ok (c : SubstrateChain) (msg to_ : String)
    (mo : Option EncryptedMemo) (h : c.encryptMemo (some msg) to_ none = .ok mo) :
    ∃ cm pk e, c.cryptMessage = some cm ∧ c.addressPublicKey to_ = .ok pk ∧
      cm.encryptMessage msg pk = .ok e ∧ mo = some ⟨e, c.keyPairType, to_⟩ := by
  unfold SubstrateChain.encryptMemo at h
  cases hpk : c.addressPublicKey to_ with
  | error e => simp [hpk] at h
  | ok pk =>
    cases hcm : c.cryptMessage with
    | none => simp [hpk, hcm] at h
    | some cm =>
      cases henc : cm.encryptMessage msg pk with
      | error e => simp [hpk, hcm, henc] at h
      | ok e =>
        simp [hpk, hcm, henc] at h
        exact ⟨cm, pk, e, rfl, rfl, henc, by rw [← h]⟩

/-- Inversion of a successful `transferWithMemo` on a non-null memo. -/
theorem transferWithMemo_some_ok (c : SubstrateChain) (to_ : String) (amount : Nat)
    (msg : String) (sub : Call)
    (h : c.transferWithMemo to_ amount (some msg) = .ok sub) :
    ∃ cm pk e, c.cryptMessage = some cm ∧ c.addressPublicKey to_ = .ok pk ∧
      cm.encryptMessage msg pk = .ok e ∧
      sub = .utilityBatchAll [.balancesTransferKeepAlive to_ amount,
        .systemRemark (encodeEncryptedMemo ⟨e, c.keyPairType, to_⟩)] := by
  unfold SubstrateChain.transferWithMemo at h
  cases hv : c.validate to_ with
  | false => rw [hv] at h; simp at h
  | true =>
    rw [hv] at h
    simp only [Bool.true_eq_false, if_false] at h
    cases he : c.encryptMemo (some msg) to_ none with
    | error e => rw [he] at h; simp at h
    | ok mo =>
      rw [he] at h
      simp only [Except.ok.injEq] at h
      obtain ⟨cm, pk, e, hcm, hpk, henc, hmo⟩ := encryptMemo_some_ok c msg to_ mo he
      subst hmo
      exact ⟨cm, pk, e, hcm, hpk, henc, by rw [← h]; rfl⟩

/-- Inversion of a successful `assetsTransferWithMemo` on a non-null asset id
and non-null memo. -/
theorem assetsTransferWithMemo_some_ok (c : SubstrateChain) (to_ : String)
    (amount assetId : Nat) (msg : String) (sub : Call)
    (h : c.assetsTransferWithMemo to_ amount (some assetId) (some msg) = .ok sub) :
    ∃ cm pk e, c.cryptMessage = some cm ∧ c.addressPublicKey to_ = .ok pk ∧
      cm.encryptMessage msg pk = .ok e ∧
      sub = .utilityBatchAll [.assetsTransferKeepAlive assetId to_ amount,
        .systemRemark (encodeEncryptedMemo ⟨e, c.keyPairType, to_⟩)] := by
  unfold SubstrateChain.assetsTransferWithMemo at h
  cases hv : c.validate to_ with
  | false => rw [hv] at h; simp at h
  | true =>
    rw [hv] at h
    simp only [Bool.true_eq_false, if_false] at h
    cases he : c.encryptMemo (some msg) to_ none with
    | error e => rw [he] at h; simp at h
    | ok mo =>
      rw [he] at h
      simp only [Except.ok.injEq] at h
      obtain ⟨cm, pk, e, hcm, hpk, henc, hmo⟩ := encryptMemo_some_ok c msg to_ mo he
      subst hmo
      exact ⟨cm, pk, e, hcm, hpk, henc, by rw [← h]; rfl⟩

/-- On a well-formed record, the extraction succeeds and computes the
name-keyed batch-remark rule. -/
theorem memoEntry_eq_of_wf (r : ExtrinsicParamsRecord) (h : recordWF r = true) :
    memoEntry r = .ok ⟨r.extrinsic_index, memoSpecNamed r⟩ := by
  obtain ⟨idx, params⟩ := r
  rcases params with _ | ⟨p, _ | ⟨q, rest⟩⟩
  · rfl
  · obtain ⟨nm, v⟩ := p
    by_cases hn : nm = "calls"
    · subst hn
      cases v with
      | str s =>
        have hs : ¬(s = "") := by
          simp [recordWF] at h
          exact h
        simp [memoEntry, memoSpecNamed, hs]
      | calls cs =>
        cases hl : cs.getLast? with
        | none => simp [recordWF, hl] at h
        | some lc =>
          by_cases hrem : lc.call_module = "System" ∧
              (lc.call_name = "remark_with_event" ∨ lc.call_name = "remark")
          · cases hp : lc.params.head? with
            | none =>
              have hnil : lc.params = [] := by
                cases lcp : lc.params with
                | nil => rfl
                | cons a as => rw [lcp] at hp; simp at hp
              simp [recordWF, hl, hrem, hnil] at h
            | some p0 =>
              simp [memoEntry, memoSpecNamed, hl, hrem, hp]
          · simp [memoEntry, memoSpecNamed, hl, hrem]
    · simp [memoEntry, memoSpecNamed, hn]
  · rfl

/-! ## Claim theorems -/

/-- C2 amended: over well-formed indexer records (nonempty batch value; a
trailing remark call carries its parameter; no empty-string `"calls"` value),
the memo map computed by `getMemoByTransferExtrinsics` records, per locator,
exactly the `memoSpecNamed` rule: a memo — the string value of the trailing
remark call's first parameter — if and only if the record's parameter list
has exactly one parameter, **named `"calls"`**, holding a sequence of inner
calls whose last call is a `System` `remark`/`remark_with_event`; every other
record gets "no memo".  (The claim's name-free shape condition fails on the
code: see the counterexample; and on non-well-formed records the extraction
throws a `TypeError` instead of recording "no memo".) -/
theorem spec_C2 (rs : List ExtrinsicParamsRecord)
    (h : ∀ r ∈ rs, recordWF r = true) :
    getMemoByTransferExtrinsics rs =
      .ok (rs.map (fun r => ⟨r.extrinsic_index, memoSpecNamed r⟩)) := by
  induction rs with
  | nil => rfl
  | cons r rs ih =>
    have hr := memoEntry_eq_of_wf r (h r (List.mem_cons_self r rs))
    have hrs := ih (fun x hx => h x (List.mem_cons_of_mem r hx))
    simp only [getMemoByTransferExtrinsics, hr, hrs, List.map_cons]

/-- C2 counterexample: a record whose single parameter holds a sequence of
inner calls ending in a `System.remark` — the claim's condition — but whose
parameter is not named `"calls"`: the claim says its memo map entry is the
remark payload (`memoSpecClaim` computes `"hello"`), yet the code records no
memo for it. -/
theorem spec_C2_cex :
    memoEntry rOddName = .ok ⟨"10-1", none⟩ ∧
    memoSpecClaim rOddName = some "hello" ∧
    memoEntry ⟨"13-1", [⟨"calls", .calls []⟩]⟩ =
      .error "TypeError: Cannot read properties of undefined (reading call_module)" :=
  ⟨rfl, rfl, rfl⟩

/-- Witness for C2's amended theorem on a concrete record batch. -/
theorem spec_C2_w :
    getMemoByTransferExtrinsics [rBatchRemark, rPlain, rOddName] =
      .ok [⟨"11-1", some "payload"⟩, ⟨"12-1", none⟩, ⟨"10-1", none⟩] := by
  have h := spec_C2 [rBatchRemark, rPlain, rOddName] (by decide)
  simpa using h

/-- C1: for every recipient, amount and non-null memo plaintext, the
submission built by `SubstrateChain.transferWithMemo` (and by the
assetId-non-null path of `assetsTransferWithMemo`) is an atomic
`utility.batchAll` of exactly `[value-transfer call, remark call]` in that
order; the remark is the last call of the batch and its sole parameter is the
JSON serialization of the envelope with exactly three fields: the ciphertext
`e`, the scheme tag `t` (the chain's keypair type) and the recipient's
address string `to`. -/
theorem spec_C1 (c : SubstrateChain) (to_ : String) (amount assetId : Nat)
    (msg : String) :
    (∀ sub, c.transferWithMemo to_ amount (some msg) = .ok sub →
      ∃ cm pk e, c.cryptMessage = some cm ∧ c.addressPublicKey to_ = .ok pk ∧
        cm.encryptMessage msg pk = .ok e ∧
        sub = .utilityBatchAll [.balancesTransferKeepAlive to_ amount,
          .systemRemark (encodeEncryptedMemo ⟨e, c.keyPairType, to_⟩)]) ∧
    (∀ sub, c.assetsTransferWithMemo to_ amount (some assetId) (some msg) = .ok sub →
      ∃ cm pk e, c.cryptMessage = some cm ∧ c.addressPublicKey to_ = .ok pk ∧
        cm.encryptMessage msg pk = .ok e ∧
        sub = .utilityBatchAll [.assetsTransferKeepAlive assetId to_ amount,
          .systemRemark (encodeEncryptedMemo ⟨e, c.keyPairType, to_⟩)]) :=
  ⟨fun sub h => transferWithMemo_some_ok c to_ amount msg sub h,
   fun sub h => assetsTransferWithMemo_some_ok c to_ amount assetId msg sub h⟩

/-- Witness for C1 at a concrete chain, recipient, amount and plaintext. -/
theorem spec_C1_w :
    ∃ cm pk e, chain0.cryptMessage = some cm ∧
      chain0.addressPublicKey "A" = .ok pk ∧ cm.encryptMessage "hi" pk = .ok e ∧
      Call.utilityBatchAll [.balancesTransferKeepAlive "A" 5,
          .systemRemark "\x7b\"e\":\"CT:hi:PKA\",\"t\":\"sr25519\",\"to\":\"A\"\x7d"]
        = .utilityBatchAll [.balancesTransferKeepAlive "A" 5,
          .systemRemark (encodeEncryptedMemo ⟨e, chain0.keyPairType, "A"⟩)] :=
  (spec_C1 chain0 "A" 5 7 "hi").1
    (.utilityBatchAll [.balancesTransferKeepAlive "A" 5,
      .systemRemark "\x7b\"e\":\"CT:hi:PKA\",\"t\":\"sr25519\",\"to\":\"A\"\x7d"]) rfl

/-- C8: a recipient that fails the SS58 structural/checksum check makes
`transferWithMemo` and `assetsTransferWithMemo` (non-null assetId) fail with
the invalid-recipient error, for every amount and memo and independently of
the key-resolution and encryption collaborators (the fixed error value shows
neither was consulted); no call value is produced, so nothing is signed or
submitted. -/
theorem spec_C8 (c : SubstrateChain) (to_ : String) (amount assetId : Nat)
    (memo : Option String) (h : c.validate to_ = false) :
    c.transferWithMemo to_ amount memo =
      .error "Failed to transferWithMemo: Error: to is not a valid address" ∧
    c.assetsTransferWithMemo to_ amount (some assetId) memo =
      .error "Failed to assetsTransferWithMemo: Error: to is not a valid address" := by
  constructor
  · unfold SubstrateChain.transferWithMemo
    rw [h]
    simp
  · unfold SubstrateChain.assetsTransferWithMemo
    rw [h]
    simp

/-- Witness for C8 at a chain that rejects every address. -/
theorem spec_C8_w :
    chainBad.transferWithMemo "A" 5 (some "hi") =
      .error "Failed to transferWithMemo: Error: to is not a valid address" ∧
    chainBad.assetsTransferWithMemo "A" 5 (some 7) (some "hi") =
      .error "Failed to assetsTransferWithMemo: Error: to is not a valid address" :=
  spec_C8 chainBad "A" 5 7 (some "hi") rfl

/-- C10: `SubstrateChain.create` rejects a non-null crypt service whose
keypair type differs from the requested one; a successfully constructed
instance with a non-null crypt service has `keyPairType` equal to the
service's; and every envelope produced by `encryptMemo` carries the
instance's `keyPairType` as its scheme tag. -/
theorem spec_C10 :
    (∀ v apk kt (cm : CryptMessage), kt ≠ cm.keyPairType →
      SubstrateChain.create v apk kt (some cm) =
        .error "Failed to create SubstrateService: Error: keyPairType and cryptMessage are not consistent") ∧
    (∀ v apk kt cmo c, SubstrateChain.create v apk kt cmo = .ok c →
      c.keyPairType = kt ∧ ∀ cm, c.cryptMessage = some cm → c.keyPairType = cm.keyPairType) ∧
    (∀ (c : SubstrateChain) memo to_ tpk m,
      c.encryptMemo memo to_ tpk = .ok (some m) → m.t = c.keyPairType) := by
  refine ⟨?_, ?_, ?_⟩
  · intro v apk kt cm hne
    simp [SubstrateChain.create, hne]
  · intro v apk kt cmo c h
    unfold SubstrateChain.create at h
    split at h
    next cm =>
      split at h
      next he =>
        simp only [Except.ok.injEq] at h
        subst h
        exact ⟨rfl, fun cm' hcm' => by
          simp only [Option.some.injEq] at hcm'
          subst hcm'
          exact he⟩
      next he => simp at h
    next =>
      simp only [Except.ok.injEq] at h
      subst h
      exact ⟨rfl, fun cm' hcm' => by simp at hcm'⟩
  · intro c memo to_ tpk m h
    unfold SubstrateChain.encryptMemo at h
    cases memo with
    | none => simp at h
    | some msg =>
      cases hr : (match tpk with
                  | some pk => Except.ok pk
                  | none => c.addressPublicKey to_) with
      | error e => rw [hr] at h; simp at h
      | ok pk =>
        rw [hr] at h
        cases hcm : c.cryptMessage with
        | none => simp [hcm] at h
        | some cm =>
          cases henc : cm.encryptMessage msg pk with
          | error e => simp [hcm, henc] at h
          | ok e =>
            simp [hcm, henc] at h
            rw [← h]

/-- C3: `decryptTransfersMemo` on N rows returns exactly N rows in input
order; each row is handled independently — its memo is replaced by the
decrypted plaintext when the memo parses as an envelope and the service's
authenticated decryption succeeds, and kept as its original raw value when
parsing fails (garbage or absent memo), when decryption fails, or when the
service is null; all non-memo fields are preserved; and a change confined to
one input row never alters any other output row.  The function is total (it
returns a plain list, never an error), so no per-row failure aborts the call. -/
theorem spec_C3 (cm : Option CryptMessage) (ts : List TransferDetailWithMemo) :
    (decryptTransfersMemo ts cm).length = ts.length ∧
    (∀ (i : Nat) (t : TransferDetailWithMemo) (c : CryptMessage)
        (m : EncryptedMemo) (plain : String), ts[i]? = some t → cm = some c →
      convertJsonToEncryptedMemo t.memo = .ok m → c.decryptMessage m.e = .ok plain →
      (decryptTransfersMemo ts cm)[i]? = some { t with memo := some plain }) ∧
    (∀ (i : Nat) (t : TransferDetailWithMemo) (err : String),
      ts[i]? = some t → convertJsonToEncryptedMemo t.memo = .error err →
      (decryptTransfersMemo ts cm)[i]? = some t) ∧
    (∀ (i : Nat) (t : TransferDetailWithMemo) (c : CryptMessage)
        (m : EncryptedMemo) (err : String), ts[i]? = some t → cm = some c →
      convertJsonToEncryptedMemo t.memo = .ok m → c.decryptMessage m.e = .error err →
      (decryptTransfersMemo ts cm)[i]? = some t) ∧
    (∀ (i : Nat) (t : TransferDetailWithMemo), ts[i]? = some t → cm = none →
      (decryptTransfersMemo ts cm)[i]? = some t) ∧
    (∀ (i : Nat) (t r : TransferDetailWithMemo),
      ts[i]? = some t → (decryptTransfersMemo ts cm)[i]? = some r →
      r.sender = t.sender ∧ r.recipient = t.recipient ∧ r.type = t.type ∧
      r.tokenSymbol = t.tokenSymbol ∧ r.amount = t.amount ∧ r.fee = t.fee ∧
      r.timestamp = t.timestamp ∧ r.txId = t.txId ∧
      r.extrinsic_index = t.extrinsic_index) ∧
    (∀ (ts' : List TransferDetailWithMemo) (k : Nat),
      (∀ (j : Nat), j ≠ k → ts[j]? = ts'[j]?) →
      ∀ (j : Nat), j ≠ k →
        (decryptTransfersMemo ts cm)[j]? = (decryptTransfersMemo ts' cm)[j]?) := by
  refine ⟨by simp [decryptTransfersMemo], ?_, ?_, ?_, ?_, ?_, ?_⟩
  · intro i t c m plain ht hc hm hd
    subst hc
    simp [decryptTransfersMemo, List.getElem?_map, ht, hm, hd]
  · intro i t err ht hm
    simp [decryptTransfersMemo, List.getElem?_map, ht, hm]
  · intro i t c m err ht hc hm hd
    subst hc
    simp [decryptTransfersMemo, List.getElem?_map, ht, hm, hd]
  · intro i t ht hc
    subst hc
    cases hm : convertJsonToEncryptedMemo t.memo <;>
      simp [decryptTransfersMemo, List.getElem?_map, ht, hm]
  · intro i t r ht hr
    simp only [decryptTransfersMemo, List.getElem?_map, ht, Option.map_some',
      Option.some.injEq] at hr
    cases hm : convertJsonToEncryptedMemo t.memo with
    | error e =>
      simp only [hm] at hr
      subst hr
      exact ⟨rfl, rfl, rfl, rfl, rfl, rfl, rfl, rfl, rfl⟩
    | ok m =>
      simp only [hm] at hr
      cases cm with
      | none =>
        subst hr
        exact ⟨rfl, rfl, rfl, rfl, rfl, rfl, rfl, rfl, rfl⟩
      | some c =>
        cases hd : c.decryptMessage m.e with
        | ok plain =>
          simp only [hd] at hr
          subst hr
          exact ⟨rfl, rfl, rfl, rfl, rfl, rfl, rfl, rfl, rfl⟩
        | error err =>
          simp only [hd] at hr
          subst hr
          exact ⟨rfl, rfl, rfl, rfl, rfl, rfl, rfl, rfl, rfl⟩
  · intro ts' k hagree j hj
    simp only [decryptTransfersMemo, List.getElem?_map, hagree j hj]

/-- Witness for C3 on a two-row batch: the corrupted row 1 is kept as its raw
value while row 0 decrypts, and the batch keeps its length. -/
theorem spec_C3_w :
    (decryptTransfersMemo [tGood, tBad] (some cm0)).length = 2 ∧
    (decryptTransfersMemo [tGood, tBad] (some cm0))[1]? = some tBad ∧
    (decryptTransfersMemo [tGood, tBad] (some cm0))[0]? =
      some { tGood with memo := some "secret" } := by
  obtain ⟨hlen, hok, herr, -, -, -, -⟩ := spec_C3 (some cm0) [tGood, tBad]
  exact ⟨hlen, herr 1 tBad "SyntaxError: not a memo envelope" rfl rfl,
    hok 0 tGood cm0 ⟨"CT", "sr25519", "bob"⟩ "secret" rfl rfl rfl rfl⟩

/-- C4 counterexample: an envelope correctly addressed to the local identity
but tagged with a different scheme (`t = "ed25519"` while the decrypting
service is `sr25519`).  The claim demands a `DecryptionFailure` with no
cryptographic decryption attempted; the code instead passes the ciphertext to
`decryptMessage` (the attempt list is `["CT"]`) and, since that call
authenticates, replaces the memo with the plaintext. -/
theorem spec_C4_cex :
    convertJsonToEncryptedMemo tMismatch.memo = .ok ⟨"CT", "ed25519", "bob"⟩ ∧
    cm0.keyPairType = "sr25519" ∧
    decryptAttempts [tMismatch] (some cm0) = ["CT"] ∧
    decryptTransfersMemo [tMismatch] (some cm0) =
      [{ tMismatch with memo := some "secret" }] :=
  ⟨rfl, rfl, rfl, rfl⟩

/-- C4 amended: the envelope's scheme tag is never consulted on the decrypt
path — for every parsed envelope, matching tag or not, the ciphertext is
passed to the service's `decryptMessage` (so a cryptographic decryption
operation *is* attempted), and the row's memo is replaced exactly when that
call succeeds; a scheme mismatch by itself neither prevents the attempt nor
forces a failure (the statement nowhere depends on `m.t` or on the service's
`keyPairType`). -/
theorem spec_C4 (c : CryptMessage) (t : TransferDetailWithMemo)
    (m : EncryptedMemo) (hp : convertJsonToEncryptedMemo t.memo = .ok m) :
    decryptAttempts [t] (some c) = [m.e] ∧
    (∀ plain, c.decryptMessage m.e = .ok plain →
      decryptTransfersMemo [t] (some c) = [{ t with memo := some plain }]) ∧
    (∀ err, c.decryptMessage m.e = .error err →
      decryptTransfersMemo [t] (some c) = [t]) := by
  refine ⟨?_, ?_, ?_⟩
  · simp [decryptAttempts, hp]
  · intro plain hd
    simp [decryptTransfersMemo, hp, hd]
  · intro err hd
    simp [decryptTransfersMemo, hp, hd]

/-- Witness for C4's amended theorem at a concrete matching envelope. -/
theorem spec_C4_w :
    decryptAttempts [tGood] (some cm0) = ["CT"] ∧
    decryptTransfersMemo [tGood] (some cm0) = [{ tGood with memo := some "secret" }] := by
  obtain ⟨hat, hok, -⟩ := spec_C4 cm0 tGood ⟨"CT", "sr25519", "bob"⟩ rfl
  exact ⟨hat, hok "secret" rfl⟩

/-- C5 counterexample: in the hash-lookup path (`getTransferByHash`, which
queries with no address), the claim demands the direction be omitted rather
than guessed; but the code computes `item.from === undefined ? "Send" :
"Receive"`, which is always false, so the reconstructed row carries the
guessed direction `"Receive"`. -/
theorem spec_C5_cex :
    getTransferByHash feeFmt0 [rAlice] [] = .ok (some rowAliceOut) ∧
    rowAliceOut.type = "Receive" :=
  ⟨rfl, rfl⟩

/-- C5 amended: when a concrete address was queried, a reconciled row's
direction is `"Send"` exactly when its `from` field equals that address and
`"Receive"` otherwise; when no address was queried (the hash-lookup path),
the direction field is not omitted — it is always set to `"Receive"`. -/
theorem spec_C5 (address : Option String) (feeFmt : Int → String)
    (raw : List RawTransfer) (ps : List ExtrinsicParamsRecord)
    (rows : List TransferDetailWithMemo)
    (h : addressTransferHistory address feeFmt raw ps = .ok rows) :
    rows.length = raw.length ∧
    (∀ (i : Nat) (item : RawTransfer) (row : TransferDetailWithMemo),
      raw[i]? = some item → rows[i]? = some row →
      (row.type = "Send" ∨ row.type = "Receive") ∧
      (row.type = "Send" ↔ some item.from_ = address) ∧
      (address = none → row.type = "Receive")) := by
  unfold addressTransferHistory at h
  cases hm : getMemoByTransferExtrinsics ps with
  | error e => rw [hm] at h; simp at h
  | ok memos =>
    rw [hm] at h
    simp only [Except.ok.injEq] at h
    subst h
    constructor
    · simp
    · intro i item row hi hrow
      simp only [List.getElem?_map, hi, Option.map_some', Option.some.injEq] at hrow
      subst hrow
      by_cases hsend : some item.from_ = address
      · simp [hsend]
        rw [← hsend]
        simp
      · have hbeq : (some item.from_ == address) = false := by
          simp [hsend]
        refine ⟨Or.inr (by simp [hbeq]), ?_, fun _ => by simp [hbeq]⟩
        constructor
        · intro hty
          simp [hbeq] at hty
        · intro hcontr
          exact absurd hcontr hsend

/-- Witness for C5's amended theorem: when `"alice"` is the queried address,
her outgoing transfer's row has direction `"Send"`. -/
theorem spec_C5_w :
    rowAliceSendOut.type = "Send" ∧
    addressTransferHistory (some "alice") feeFmt0 [rAlice] [] = .ok [rowAliceSendOut] := by
  have h := spec_C5 (some "alice") feeFmt0 [rAlice] [] [rowAliceSendOut] rfl
  exact ⟨((h.2 0 rAlice rowAliceSendOut rfl rfl).2.1).mpr rfl, rfl⟩

/-- C6: composing with a null memo degenerates to the plain single-transfer
path — no batch and no remark, for both the native and the asset path — and
the history row reconciled from such a plain transfer record has its memo
field absent (`none`, neither an empty string nor a decryption-failure
value), a state that batch decryption leaves untouched. -/
theorem spec_C6 (c : SubstrateChain) (to_ : String) (amount assetId : Nat)
    (hv : c.validate to_ = true) (address : Option String) (feeFmt : Int → String)
    (item : RawTransfer) (cm : Option CryptMessage) :
    c.transferWithMemo to_ amount none = .ok (.balancesTransferKeepAlive to_ amount) ∧
    c.assetsTransferWithMemo to_ amount (some assetId) none =
      .ok (.assetsTransferKeepAlive assetId to_ amount) ∧
    memoEntry (indexerRecord item.extrinsic_index (.balancesTransferKeepAlive to_ amount)) =
      .ok ⟨item.extrinsic_index, none⟩ ∧
    (∃ row, addressTransferHistory address feeFmt [item]
        [indexerRecord item.extrinsic_index (.balancesTransferKeepAlive to_ amount)] =
          .ok [row] ∧
      row.memo = none ∧ decryptTransfersMemo [row] cm = [row]) := by
  refine ⟨?_, ?_, ?_, ?_⟩
  · unfold SubstrateChain.transferWithMemo
    rw [hv]
    simp
  · unfold SubstrateChain.assetsTransferWithMemo
    rw [hv]
    simp
  · rfl
  · refine ⟨⟨if some item.from_ == address then "Send" else "Receive", item.from_,
      item.to_, item.asset_symbol, item.amount, none, feeFmt item.fee ++ " DOT",
      item.block_timestamp, item.hash, item.extrinsic_index⟩, ?_, rfl, ?_⟩
    · unfold addressTransferHistory
      simp [getMemoByTransferExtrinsics, memoEntry, indexerRecord]
    · simp [decryptTransfersMemo, convertJsonToEncryptedMemo]

/-- Witness for C6 at a concrete chain and transfer record. -/
theorem spec_C6_w :
    chain0.transferWithMemo "A" 5 none = .ok (.balancesTransferKeepAlive "A" 5) ∧
    (∃ row, addressTransferHistory (some "x") feeFmt0 [rAlice]
        [indexerRecord rAlice.extrinsic_index (.balancesTransferKeepAlive "A" 5)] =
          .ok [row] ∧
      row.memo = none ∧ decryptTransfersMemo [row] (some cm0) = [row]) := by
  have h := spec_C6 chain0 "A" 5 7 rfl (some "x") feeFmt0 rAlice (some cm0)
  exact ⟨h.1, h.2.2.2⟩

/-- C9 counterexample: when the indexer returns no transfer for the locator,
the point lookup `getTransferByHash` yields `null` — a silent success value —
not an error; the claim's error is raised only one layer up, in
`SubstrateChain.getTransferMemo`. -/
theorem spec_C9_cex :
    getTransferByHash feeFmt0 [] [] = .ok none ∧
    chain0.getTransferMemo feeFmt0 [] [] =
      .error "Failed to getTransactionMemo: Error: txDetails is null" :=
  ⟨rfl, rfl⟩

/-- C9 amended: the point lookup resolves the hash to a locator and returns
the **first** reconciled row for that locator, or `null` (a success value,
not an error) when the indexer returns no transfer; the not-found error
(`txDetails is null`) is produced by the caller `SubstrateChain.
getTransferMemo`, which also decrypts the single returned row. -/
theorem spec_C9 (c : SubstrateChain) (feeFmt : Int → String)
    (raw : List RawTransfer) (ps : List ExtrinsicParamsRecord)
    (rows : List TransferDetailWithMemo)
    (h : addressTransferHistory none feeFmt raw ps = .ok rows) :
    getTransferByHash feeFmt raw ps = .ok rows.head? ∧
    (raw = [] → rows = []) ∧
    (rows.head? = none →
      c.getTransferMemo feeFmt raw ps =
        .error "Failed to getTransactionMemo: Error: txDetails is null") ∧
    (∀ td, rows.head? = some td →
      c.getTransferMemo feeFmt raw ps =
        .ok ((decryptTransfersMemo [td] c.cryptMessage).headD td)) := by
  have hb : getTransferByHash feeFmt raw ps = .ok rows.head? := by
    unfold getTransferByHash
    rw [h]
  refine ⟨hb, ?_, ?_, ?_⟩
  · intro hraw
    subst hraw
    unfold addressTransferHistory at h
    cases hm : getMemoByTransferExtrinsics ps with
    | error e => rw [hm] at h; simp at h
    | ok memos =>
      rw [hm] at h
      simp at h
      exact h
  · intro hhead
    unfold SubstrateChain.getTransferMemo
    rw [hb, hhead]
  · intro td hhead
    unfold SubstrateChain.getTransferMemo
    rw [hb, hhead]

/-- Witness for C9 on a one-transfer indexer answer. -/
theorem spec_C9_w :
    getTransferByHash feeFmt0 [rAlice] [] = .ok [rowAliceOut].head? ∧
    chain0.getTransferMemo feeFmt0 [rAlice] [] =
      .ok ((decryptTransfersMemo [rowAliceOut] chain0.cryptMessage).headD rowAliceOut) := by
  have h := spec_C9 chain0 feeFmt0 [rAlice] [] [rowAliceOut] rfl
  exact ⟨h.1, h.2.2.2 rowAliceOut rfl⟩

/-- C7 counterexample: the claim says a null **or empty** plaintext fails with
an `EmptyMessageError`-kind error and submits nothing; but the code only tests
`message == null`, and the empty string is not loosely equal to null, so
`sendMessage(to, "")` succeeds and submits a zero-amount batch carrying the
encrypted empty memo. -/
theorem spec_C7_cex :
    chain0.sendMessage "A" (some "") =
      .ok (.utilityBatchAll [.balancesTransferKeepAlive "A" 0,
        .systemRemark "\x7b\"e\":\"CT::PKA\",\"t\":\"sr25519\",\"to\":\"A\"\x7d"]) := rfl

/-- C7 amended: only a null plaintext is rejected (with the message-is-null
error, submitting nothing); every string plaintext — the empty string
included — is accepted and behaves as a zero-amount native transfer carrying
that plaintext as encrypted memo. -/
theorem spec_C7 (c : SubstrateChain) (to_ : String) :
    c.sendMessage to_ none = .error "Failed to sendMessage: Error: message is null" ∧
    (∀ msg sub, c.sendMessage to_ (some msg) = .ok sub →
      ∃ cm pk e, c.cryptMessage = some cm ∧ c.addressPublicKey to_ = .ok pk ∧
        cm.encryptMessage msg pk = .ok e ∧
        sub = .utilityBatchAll [.balancesTransferKeepAlive to_ 0,
          .systemRemark (encodeEncryptedMemo ⟨e, c.keyPairType, to_⟩)]) := by
  constructor
  · rfl
  · intro msg sub h
    unfold SubstrateChain.sendMessage at h
    cases ht : c.transferWithMemo to_ 0 (some msg) with
    | error e => simp [ht] at h
    | ok tx =>
      simp only [ht] at h
      simp only [Except.ok.injEq] at h
      subst h
      exact transferWithMemo_some_ok c to_ 0 msg tx ht

/-- Witness for C7's amended theorem at a concrete chain and message. -/
theorem spec_C7_w :
    ∃ cm pk e, chain0.cryptMessage = some cm ∧
      chain0.addressPublicKey "A" = .ok pk ∧ cm.encryptMessage "yo" pk = .ok e ∧
      Call.utilityBatchAll [.balancesTransferKeepAlive "A" 0,
          .systemRemark "\x7b\"e\":\"CT:yo:PKA\",\"t\":\"sr25519\",\"to\":\"A\"\x7d"]
        = .utilityBatchAll [.balancesTransferKeepAlive "A" 0,
          .systemRemark (encodeEncryptedMemo ⟨e, chain0.keyPairType, "A"⟩)] :=
  (spec_C7 chain0 "A").2 "yo"
    (.utilityBatchAll [.balancesTransferKeepAlive "A" 0,
      .systemRemark "\x7b\"e\":\"CT:yo:PKA\",\"t\":\"sr25519\",\"to\":\"A\"\x7d"]) rfl

/-- Witness for C10: a mismatched construction is rejected; a matched one
yields an instance whose envelopes carry its keypair type. -/
theorem spec_C10_w :
    SubstrateChain.create chain0.validate chain0.addressPublicKey "ed25519" (some cm0) =
      .error "Failed to create SubstrateService: Error: keyPairType and cryptMessage are not consistent" ∧
    (⟨"CT:hi:PKA", "sr25519", "A"⟩ : EncryptedMemo).t = chain0.keyPairType :=
  ⟨spec_C10.1 chain0.validate chain0.addressPublicKey "ed25519" cm0 (by decide),
   spec_C10.2.2 chain0 (some "hi") "A" none ⟨"CT:hi:PKA", "sr25519", "A"⟩ rfl⟩

end EDot
